import Mathlib

/-!
Shallow embedding of the `sudonymity/cdk` repository: a CDK app
(`src/bin/cdk.ts`) instantiating `WebsiteStack` (`src/lib/website-stack.ts`),
which derives, from a domain name, a production flag, and a subdomain, the
configuration of an S3 bucket, an ACM certificate, a CloudFront distribution
and Route 53 alias records.

The constructor of `WebsiteStack` performs no I/O-dependent computation in
the derivation of these values: every configuration value it passes to the
AWS constructs is a pure function of the props.  We embed that derivation as
the function `WebsiteStack.resolve`.
-/

/-- `RemovalPolicy` from `aws-cdk-lib`; the stack uses `RETAIN` for its
bucket (`src/lib/website-stack.ts`, `SiteBucket`). -/
inductive RemovalPolicy
  | DESTROY
  | RETAIN
  deriving DecidableEq, Repr

/-- The props accepted by `WebsiteStack`.  In TypeScript this is the
discriminated union `ProdWebsiteStackProps | NonProdWebsiteStackProps`:
`siteSubDomain` is a required field of the non-production variant and is
absent from the production variant.  At runtime the constructor reads
`props.siteSubDomain` only when `isProd` is false, so we model the props as
a record carrying the field in both cases; the resolver ignores it when
`isProd` is true, exactly as the source expression
`props.isProd ? "www" : props.siteSubDomain` does. -/
structure WebsiteStackProps where
  domainName : String
  isProd : Bool
  siteSubDomain : String
  deriving DecidableEq, Repr

/-- Configuration of the `SiteBucket` S3 bucket
(`src/lib/website-stack.ts`, `new s3.Bucket(... )`). -/
structure BucketProps where
  bucketName : String
  publicReadAccess : Bool
  blockPublicAccess : Bool
  removalPolicy : RemovalPolicy
  deriving DecidableEq, Repr

/-- Configuration of the `SiteCertificate` ACM certificate.  In the source
the `subjectAlternativeNames` field is present only in production (the
conditional object spread `...(props.isProd && { subjectAlternativeNames:
[props.domainName] })`), so it is modelled as an `Option`. -/
structure CertificateProps where
  domainName : String
  subjectAlternativeNames : Option (List String)
  deriving DecidableEq, Repr

/-- The set of domains a certificate covers: its primary domain plus its
subject alternative names (an absent SAN field covers nothing extra). -/
def CertificateProps.certificateDomains (c : CertificateProps) : List String :=
  c.domainName :: c.subjectAlternativeNames.getD []

/-- One entry of the CloudFront distribution's `errorResponses` list. -/
structure ErrorResponse where
  httpStatus : Nat
  ttlSeconds : Nat
  responseHttpStatus : Nat
  responsePagePath : String
  deriving DecidableEq, Repr

/-- A Route 53 `ARecord`.  `recordName` is optional in the CDK API; when it
is omitted (as for `SiteAliasRecordApex`) the record is created at the apex
of the hosted zone, i.e. at the zone's domain name. -/
structure ARecordProps where
  recordName : Option String
  deriving DecidableEq, Repr

/-- Everything the `WebsiteStack` constructor derives from its props and
passes to the AWS constructs: the pinned region, the effective subdomain and
site domain, the hosted-zone lookup domain, the bucket, certificate,
distribution and DNS-record configurations, and the `Site` output URL. -/
structure ResolvedStack where
  region : String
  siteSubDomain : String
  siteDomain : String
  zoneDomainName : String
  siteBucket : BucketProps
  certificate : CertificateProps
  distributionDomainNames : List String
  defaultRootObject : String
  errorResponses : List ErrorResponse
  dnsRecords : List ARecordProps
  siteUrl : String
  deriving DecidableEq, Repr

namespace WebsiteStack

/-- The derivation performed by the `WebsiteStack` constructor
(`src/lib/website-stack.ts`), line by line:
the region is pinned to `us-east-1`; `siteSubDomain` is `"www"` in
production and the supplied subdomain otherwise; `siteDomain` is the
template literal `` `${siteSubDomain}.${props.domainName}` ``; the zone is
looked up by `props.domainName`; the bucket is named `siteDomain`, private,
with removal policy `RETAIN`; the certificate's primary domain is
`siteDomain` with the apex as SAN only in production; the distribution
serves `siteDomain` plus, in production, the apex, with `index.html` as
root object and the two error-response rewrites; `SiteAliasRecord` targets
`siteDomain` and, in production only, `SiteAliasRecordApex` is created with
no record name (hence at the zone apex). -/
def resolve (props : WebsiteStackProps) : ResolvedStack :=
  let siteSubDomain := if props.isProd then "www" else props.siteSubDomain
  let siteDomain := siteSubDomain ++ "." ++ props.domainName
  { region := "us-east-1"
    siteSubDomain := siteSubDomain
    siteDomain := siteDomain
    zoneDomainName := props.domainName
    siteBucket :=
      { bucketName := siteDomain
        publicReadAccess := false
        blockPublicAccess := true
        removalPolicy := RemovalPolicy.RETAIN }
    certificate :=
      { domainName := siteDomain
        subjectAlternativeNames :=
          if props.isProd then some [props.domainName] else none }
    distributionDomainNames :=
      [siteDomain] ++ (if props.isProd then [props.domainName] else [])
    defaultRootObject := "index.html"
    errorResponses :=
      [ { httpStatus := 404, ttlSeconds := 0,
          responseHttpStatus := 200, responsePagePath := "/index.html" },
        { httpStatus := 403, ttlSeconds := 0,
          responseHttpStatus := 200, responsePagePath := "/index.html" } ]
    dnsRecords :=
      [{ recordName := some siteDomain }] ++
        (if props.isProd then [{ recordName := none }] else [])
    siteUrl := "https://" ++ siteDomain }

end WebsiteStack

/-- The effective DNS names of the stack's alias records: a record with an
omitted `recordName` lives at the hosted zone's apex domain. -/
def ResolvedStack.dnsRecordNames (s : ResolvedStack) : List String :=
  s.dnsRecords.map (fun r => r.recordName.getD s.zoneDomainName)

/-- Validity of a `SiteConfig` as the spec defines it: a non-empty apex
domain, and in non-production mode a non-empty subdomain. -/
def WebsiteStackProps.valid (p : WebsiteStackProps) : Prop :=
  p.domainName ≠ "" ∧ (p.isProd = false → p.siteSubDomain ≠ "")

instance (p : WebsiteStackProps) : Decidable p.valid := by
  unfold WebsiteStackProps.valid; infer_instance

/-- The app entry point (`src/bin/cdk.ts`) reads `DOMAIN_NAME` from the
environment with the fallback `process.env.DOMAIN_NAME || ""`: an absent
variable yields `""`, and so does a set-but-empty one (falsy in JS). -/
def domainNameFromEnv (env : Option String) : String :=
  match env with
  | none => ""
  | some s => if s = "" then "" else s

/-- The two stacks instantiated by `src/bin/cdk.ts`:
`WebsiteStack-Prod` with `isProd: true` and `WebsiteStack-Dev` with
`isProd: false, siteSubDomain: "dev"`, both receiving
`process.env.DOMAIN_NAME || ""` as `domainName`.  The production props
object carries no `siteSubDomain` property; since the constructor never
reads that field when `isProd` is true, it is modelled as `""`. -/
def appStacks (env : Option String) : WebsiteStackProps × WebsiteStackProps :=
  ( { domainName := domainNameFromEnv env, isProd := true,
      siteSubDomain := "" },
    { domainName := domainNameFromEnv env, isProd := false,
      siteSubDomain := "dev" } )

/-- Helper: `s ++ "." ++ d` is never equal to `d`, since it is strictly
longer.  This separates every derived site domain from the apex domain. -/
theorem sub_dot_domain_ne (s d : String) : s ++ "." ++ d ≠ d := by
  intro h
  have hlen := congrArg String.length h
  rw [String.length_append, String.length_append] at hlen
  have hdot : ".".length = 1 := rfl
  omega

/-- C1 (code_bug evaluation): the constructor performs no validation.  At
`isProd = false`, `siteSubDomain = ""` it does not fail: it silently derives
the malformed site domain `".example.com"` and uses it as bucket name,
certificate domain and DNS record name; likewise an empty `domainName` in
production silently yields `"www."`. -/
theorem c1_no_configuration_error_on_empty_subdomain :
    (WebsiteStack.resolve ⟨"example.com", false, ""⟩).siteDomain =
        ".example.com" ∧
    (WebsiteStack.resolve ⟨"example.com", false, ""⟩).siteBucket.bucketName =
        ".example.com" ∧
    (WebsiteStack.resolve
        ⟨"example.com", false, ""⟩).certificate.certificateDomains =
      [".example.com"] ∧
    (WebsiteStack.resolve ⟨"example.com", false, ""⟩).dnsRecordNames =
      [".example.com"] ∧
    (WebsiteStack.resolve ⟨"", true, ""⟩).siteDomain = "www." := by
  refine ⟨rfl, rfl, rfl, rfl, rfl⟩

/-- C2: for every valid production config, the certificate domains, the
distribution domain names and the effective DNS record names each are
exactly `[siteDomain, domainName]`, the two entries are distinct (the apex
is a separate second entry), and exactly two DNS records are created. -/
theorem c2_prod_domains_and_records (d sub : String)
    (hv : WebsiteStackProps.valid ⟨d, true, sub⟩) :
    (WebsiteStack.resolve ⟨d, true, sub⟩).certificate.certificateDomains =
      [(WebsiteStack.resolve ⟨d, true, sub⟩).siteDomain, d] ∧
    (WebsiteStack.resolve ⟨d, true, sub⟩).distributionDomainNames =
      [(WebsiteStack.resolve ⟨d, true, sub⟩).siteDomain, d] ∧
    (WebsiteStack.resolve ⟨d, true, sub⟩).dnsRecordNames =
      [(WebsiteStack.resolve ⟨d, true, sub⟩).siteDomain, d] ∧
    (WebsiteStack.resolve ⟨d, true, sub⟩).siteDomain ≠ d ∧
    (WebsiteStack.resolve ⟨d, true, sub⟩).dnsRecords.length = 2 := by
  refine ⟨rfl, rfl, rfl, ?_, rfl⟩
  exact sub_dot_domain_ne "www" d

/-- C2 witness: concrete production config `example.com`. -/
theorem c2_prod_domains_and_records_witness :
    (WebsiteStack.resolve
        ⟨"example.com", true, ""⟩).certificate.certificateDomains =
      [(WebsiteStack.resolve ⟨"example.com", true, ""⟩).siteDomain,
        "example.com"] ∧
    (WebsiteStack.resolve ⟨"example.com", true, ""⟩).distributionDomainNames =
      [(WebsiteStack.resolve ⟨"example.com", true, ""⟩).siteDomain,
        "example.com"] ∧
    (WebsiteStack.resolve ⟨"example.com", true, ""⟩).dnsRecordNames =
      [(WebsiteStack.resolve ⟨"example.com", true, ""⟩).siteDomain,
        "example.com"] ∧
    (WebsiteStack.resolve ⟨"example.com", true, ""⟩).siteDomain ≠
        "example.com" ∧
    (WebsiteStack.resolve ⟨"example.com", true, ""⟩).dnsRecords.length = 2 :=
  c2_prod_domains_and_records "example.com" "" (by decide)

/-- C3: for every valid non-production config with subdomain `s`, the site
domain is `s ++ "." ++ domainName`, and the apex domain appears in none of
the certificate domains, the distribution domain names, or the effective
DNS record names. -/
theorem c3_nonprod_apex_never_appears (d s : String)
    (hv : WebsiteStackProps.valid ⟨d, false, s⟩) :
    (WebsiteStack.resolve ⟨d, false, s⟩).siteDomain = s ++ "." ++ d ∧
    d ∉ (WebsiteStack.resolve
        ⟨d, false, s⟩).certificate.certificateDomains ∧
    d ∉ (WebsiteStack.resolve ⟨d, false, s⟩).distributionDomainNames ∧
    d ∉ (WebsiteStack.resolve ⟨d, false, s⟩).dnsRecordNames := by
  have hne : ¬ d = s ++ "." ++ d := fun h => sub_dot_domain_ne s d h.symm
  refine ⟨rfl, ?_, ?_, ?_⟩ <;>
    simp [WebsiteStack.resolve, CertificateProps.certificateDomains,
      ResolvedStack.dnsRecordNames, hne]

/-- C3 witness: concrete non-production config `dev.example.com`. -/
theorem c3_nonprod_apex_never_appears_witness :
    (WebsiteStack.resolve ⟨"example.com", false, "dev"⟩).siteDomain =
        "dev" ++ "." ++ "example.com" ∧
    "example.com" ∉ (WebsiteStack.resolve
        ⟨"example.com", false, "dev"⟩).certificate.certificateDomains ∧
    "example.com" ∉ (WebsiteStack.resolve
        ⟨"example.com", false, "dev"⟩).distributionDomainNames ∧
    "example.com" ∉ (WebsiteStack.resolve
        ⟨"example.com", false, "dev"⟩).dnsRecordNames :=
  c3_nonprod_apex_never_appears "example.com" "dev" (by decide)

/-- C4: for every valid production config, the effective subdomain is the
literal `"www"` regardless of the subdomain value carried by the props, and
the site domain is `"www." ++ domainName`. -/
theorem c4_prod_effective_subdomain_www (d sub : String)
    (hv : WebsiteStackProps.valid ⟨d, true, sub⟩) :
    (WebsiteStack.resolve ⟨d, true, sub⟩).siteSubDomain = "www" ∧
    (WebsiteStack.resolve ⟨d, true, sub⟩).siteDomain = "www." ++ d :=
  ⟨rfl, rfl⟩

/-- C4 witness: production config for `example.com` with a stray subdomain
value `"staging"`, which is ignored. -/
theorem c4_prod_effective_subdomain_www_witness :
    (WebsiteStack.resolve ⟨"example.com", true, "staging"⟩).siteSubDomain =
        "www" ∧
    (WebsiteStack.resolve ⟨"example.com", true, "staging"⟩).siteDomain =
      "www." ++ "example.com" :=
  c4_prod_effective_subdomain_www "example.com" "staging" (by decide)

/-- C5: for every valid config, the list of domain names accepted by the
CloudFront distribution coincides with the set of domains covered by the
certificate (primary domain plus SANs). -/
theorem c5_distribution_matches_certificate (p : WebsiteStackProps)
    (hv : p.valid) :
    (WebsiteStack.resolve p).distributionDomainNames =
      (WebsiteStack.resolve p).certificate.certificateDomains := by
  cases hp : p.isProd <;>
    simp [WebsiteStack.resolve, CertificateProps.certificateDomains, hp]

/-- C5 witness: concrete production and non-production checks via the
theorem. -/
theorem c5_distribution_matches_certificate_witness :
    (WebsiteStack.resolve ⟨"example.com", true, ""⟩).distributionDomainNames =
      (WebsiteStack.resolve
        ⟨"example.com", true, ""⟩).certificate.certificateDomains :=
  c5_distribution_matches_certificate ⟨"example.com", true, ""⟩ (by decide)

/-- C6: for every valid config, the derived `siteDomain` string is the
bucket name, the certificate primary domain, the first (alias) domain of
the CloudFront distribution, and the record name of the `SiteAliasRecord`
DNS record — the same string in all four roles. -/
theorem c6_site_domain_used_in_four_roles (p : WebsiteStackProps)
    (hv : p.valid) :
    (WebsiteStack.resolve p).siteBucket.bucketName =
      (WebsiteStack.resolve p).siteDomain ∧
    (WebsiteStack.resolve p).certificate.domainName =
      (WebsiteStack.resolve p).siteDomain ∧
    (WebsiteStack.resolve p).distributionDomainNames.head? =
      some (WebsiteStack.resolve p).siteDomain ∧
    ((WebsiteStack.resolve p).dnsRecords.map ARecordProps.recordName).head? =
      some (some (WebsiteStack.resolve p).siteDomain) := by
  refine ⟨rfl, rfl, ?_, ?_⟩ <;>
    cases hp : p.isProd <;> simp [WebsiteStack.resolve, hp]

/-- C6 witness: concrete non-production config via the theorem. -/
theorem c6_site_domain_used_in_four_roles_witness :
    (WebsiteStack.resolve ⟨"example.com", false, "dev"⟩).siteBucket.bucketName =
      (WebsiteStack.resolve ⟨"example.com", false, "dev"⟩).siteDomain ∧
    (WebsiteStack.resolve ⟨"example.com", false, "dev"⟩).certificate.domainName =
      (WebsiteStack.resolve ⟨"example.com", false, "dev"⟩).siteDomain ∧
    (WebsiteStack.resolve
        ⟨"example.com", false, "dev"⟩).distributionDomainNames.head? =
      some (WebsiteStack.resolve ⟨"example.com", false, "dev"⟩).siteDomain ∧
    ((WebsiteStack.resolve
        ⟨"example.com", false, "dev"⟩).dnsRecords.map
          ARecordProps.recordName).head? =
      some (some (WebsiteStack.resolve
        ⟨"example.com", false, "dev"⟩).siteDomain) :=
  c6_site_domain_used_in_four_roles ⟨"example.com", false, "dev"⟩ (by decide)

/-- C7: for every valid config, the distribution's error responses rewrite
both 404 and 403 into HTTP 200 serving `/index.html`, cached for exactly
zero seconds. -/
theorem c7_error_responses_rewrite (p : WebsiteStackProps) (hv : p.valid) :
    (WebsiteStack.resolve p).errorResponses =
      [ { httpStatus := 404, ttlSeconds := 0, responseHttpStatus := 200,
          responsePagePath := "/index.html" },
        { httpStatus := 403, ttlSeconds := 0, responseHttpStatus := 200,
          responsePagePath := "/index.html" } ] :=
  rfl

/-- C7 witness: concrete production config via the theorem. -/
theorem c7_error_responses_rewrite_witness :
    (WebsiteStack.resolve ⟨"example.com", true, ""⟩).errorResponses =
      [ { httpStatus := 404, ttlSeconds := 0, responseHttpStatus := 200,
          responsePagePath := "/index.html" },
        { httpStatus := 403, ttlSeconds := 0, responseHttpStatus := 200,
          responsePagePath := "/index.html" } ] :=
  c7_error_responses_rewrite ⟨"example.com", true, ""⟩ (by decide)

/-- C8: when `DOMAIN_NAME` is absent from the environment, the app supplies
the empty string as `domainName` to both deployment targets (production and
dev) instead of failing. -/
theorem c8_absent_env_yields_empty_domain :
    (appStacks none).1.domainName = "" ∧
    (appStacks none).2.domainName = "" ∧
    (appStacks none).1.isProd = true ∧
    (appStacks none).2.isProd = false :=
  ⟨rfl, rfl, rfl, rfl⟩

/-- C9: the derivation is a pure function of the three input fields: two
props that agree on `domainName`, `isProd` and `siteSubDomain` resolve to
identical `ResolvedStack` values — no hidden state. -/
theorem c9_resolution_deterministic (p q : WebsiteStackProps)
    (h1 : p.domainName = q.domainName) (h2 : p.isProd = q.isProd)
    (h3 : p.siteSubDomain = q.siteSubDomain) :
    WebsiteStack.resolve p = WebsiteStack.resolve q := by
  have hpq : p = q := by
    cases p; cases q; simp_all
  rw [hpq]

/-- C9 witness: resolving the same concrete config twice gives the same
value. -/
theorem c9_resolution_deterministic_witness :
    WebsiteStack.resolve ⟨"example.com", false, "dev"⟩ =
      WebsiteStack.resolve ⟨"example.com", false, "dev"⟩ :=
  c9_resolution_deterministic ⟨"example.com", false, "dev"⟩
    ⟨"example.com", false, "dev"⟩ rfl rfl rfl

/-- C10: for every config, production or not, the site bucket's removal
policy is `RETAIN`, so the bucket outlives stack destruction. -/
theorem c10_bucket_removal_policy_retain (p : WebsiteStackProps) :
    (WebsiteStack.resolve p).siteBucket.removalPolicy =
      RemovalPolicy.RETAIN :=
  rfl
